import Mathlib

/-!
Shallow embedding of the splatapult GPU depth-sort rendering pipeline:
`src/splatrenderer.cpp`, `src/pointrenderer.cpp`, `src/core/program.cpp`.

Scalars computed in 32-bit floats by the source are modelled over `ℚ`
(multiplication by the power-of-two scale 65536 is exact in IEEE floats,
so the quantization structure is preserved); 32-bit unsigned integers are
modelled as `ℕ` with explicit `% 2^32` where the source's arithmetic can
wrap.  Device buffers are modelled as Lean lists, device commands as an
explicit command trace.
-/



/-- `UINT32_MAX = std::numeric_limits<uint32_t>::max()`. -/
def UINT32_MAX : ℕ := 4294967295

/-- `2^32`, the modulus of 32-bit unsigned arithmetic. -/
def U32MOD : ℕ := 4294967296

/-- glm::vec3 with exact rational components. -/
structure Vec3 where
  x : ℚ
  y : ℚ
  z : ℚ
deriving DecidableEq

instance : Inhabited Vec3 := ⟨⟨0, 0, 0⟩⟩

/-- glm::vec4 with exact rational components. -/
structure Vec4 where
  x : ℚ
  y : ℚ
  z : ℚ
  w : ℚ
deriving DecidableEq

instance : Inhabited Vec4 := ⟨⟨0, 0, 0, 0⟩⟩

/-- `glm::vec3(v)` applied to a `glm::vec4`: drop the w component. -/
def Vec4.xyz (v : Vec4) : Vec3 := ⟨v.x, v.y, v.z⟩

/-- `glm::dot` on vec3. -/
def dot3 (a b : Vec3) : ℚ := a.x * b.x + a.y * b.y + a.z * b.z

/-- Componentwise subtraction on vec3 (`operator-`). -/
def sub3 (a b : Vec3) : Vec3 := ⟨a.x - b.x, a.y - b.y, a.z - b.z⟩

/-- glm::mat4, column major as in glm: `colK` is `m[K]`. -/
structure Mat4 where
  col0 : Vec4
  col1 : Vec4
  col2 : Vec4
  col3 : Vec4
deriving DecidableEq

/-- `glm::mat3(cameraMat) * glm::vec3(0.0f, 0.0f, -1.0f)`: the rotation part of the
camera matrix applied to (0,0,-1), i.e. the negated xyz of column 2
(splatrenderer.cpp line 50, pointrenderer.cpp line 66). -/
def forwardOf (m : Mat4) : Vec3 := ⟨-m.col2.x, -m.col2.y, -m.col2.z⟩

/-- `glm::vec3(cameraMat[3])`: the translation column of the camera matrix
(splatrenderer.cpp line 51, pointrenderer.cpp line 67). -/
def eyeOf (m : Mat4) : Vec3 := m.col3.xyz

/-- `float depth = glm::dot(positionVec[i] - eye, forward)` (splatrenderer.cpp line 56). -/
def computeDepth (cameraMat : Mat4) (p : Vec3) : ℚ :=
  dot3 (sub3 p (eyeOf cameraMat)) (forwardOf cameraMat)

/-- The C cast `(uint32_t)(depth * 65536.0f)` (splatrenderer.cpp line 57): truncation
toward zero of the scaled depth.  The cast is only defined in C++ for
`0 ≤ depth * 65536 < 2^32`; theorems about it carry that hypothesis. -/
def quantizeDepth (depth : ℚ) : ℕ := (⌊depth * 65536⌋).toNat

/-- `depthVec[i] = std::numeric_limits<uint32_t>::max() - (uint32_t)(depth * 65536.0f)`
(splatrenderer.cpp line 57). -/
def depthKey (depth : ℚ) : ℕ := UINT32_MAX - quantizeDepth depth

/-- Modelled from the spec (§3 DepthKey): the spec's quantization contract,
`key = UINT32_MAX - quantize(depth)` with fixed fractional scale `2^16`; used by
the device-parallel key producer in `shader/presort_compute.glsl`, which is not
under src. -/
def specDepthKey (depth : ℚ) : ℕ := UINT32_MAX - (⌊depth * 2 ^ 16⌋).toNat

/-! ### In-place write loops over device/host arrays -/

/-- A write loop `for i in 0..n-1: l[i] = f i`, as a fold over `List.range`. -/
def setLoop (f : ℕ → α) (l : List α) (n : ℕ) : List α :=
  (List.range n).foldl (fun acc i => acc.set i (f i)) l

/-! ### Device command trace

Per-frame device operations are recorded as an explicit trace, so that claims about
what kind of transfer an operation is (host upload, device-to-device copy, host
readback) can be stated.  The sources issue no device-to-host readback in the frame
cycle, so renders emit no `readbackDeviceToHost` command. -/

inductive GLCmd where
  | uploadHostToDevice (byteCount : ℕ)
  | dispatchCompute (numGroupsX : ℕ)
  | memoryBarrier
  | sortDevice (count : ℕ)
  | copyDeviceToDevice (readOffset : ℕ) (writeOffset : ℕ) (byteCount : ℕ)
  | readbackDeviceToHost (byteCount : ℕ)
  | drawElements (count : ℕ)
deriving DecidableEq

/-- Modelled from the spec: `rgc::radix_sort::sorter::sort(keys, values, count)`
(radix_sort.hpp, a vendored library not under src).  Spec §4.2: sorts `count`
key/value pairs resident on the device, ascending by key, each value following its
key, in place; stability is not guaranteed, so any ascending reordering is an
admissible model — we use insertion sort by key. -/
def sorterSort (keys vals : List ℕ) (count : ℕ) : List ℕ × List ℕ :=
  let sorted := List.insertionSort (fun a b => a.1 ≤ b.1) ((keys.take count).zip (vals.take count))
  (sorted.map Prod.fst ++ keys.drop count, sorted.map Prod.snd ++ vals.drop count)

/-! ### SplatRenderer (src/splatrenderer.cpp) -/

/-- One record of the GaussianCloud container (external per spec §1/§6: the container
is consumed through its interface).  `covCol0..2` are the columns of
`g.ComputeCovMat()`, computed by the container (gaussiancloud.cpp is not under src). -/
structure Gaussian where
  position : Vec3
  f_dc0 : ℚ
  f_dc1 : ℚ
  f_dc2 : ℚ
  opacity : ℚ
  covCol0 : Vec3
  covCol1 : Vec3
  covCol2 : Vec3

/-- `SH_C0 = 0.28209479177387814f` (splatrenderer.cpp line 123). -/
def SH_C0 : ℚ := 0.28209479177387814

/-- The color written per gaussian (splatrenderer.cpp lines 124-127):
`alpha = 1/(1 + expf(-opacity))`, `color = (0.5 + SH_C0 * f_dc[k], alpha)`.
`expf` is the host math library exponential (transcendental, external); it is taken
as a parameter. -/
def splatColorOf (expf : ℚ → ℚ) (g : Gaussian) : Vec4 :=
  ⟨0.5 + SH_C0 * g.f_dc0, 0.5 + SH_C0 * g.f_dc1, 0.5 + SH_C0 * g.f_dc2,
   1 / (1 + expf (-g.opacity))⟩

/-- The SplatRenderer's buffers and host vectors.  Fields named after the members of
`SplatRenderer` and the buffers built in `BuildVertexArrayObject`; `elementBuffer`
is the element buffer of `splatVao`. -/
structure SplatState where
  positionVec : List Vec3
  depthVec : List ℕ
  indexVec : List ℕ
  keyBuffer : List ℕ
  valBuffer : List ℕ
  elementBuffer : List ℕ
  positionBuffer : List Vec3
  colorBuffer : List Vec4
  cov3Col0Buffer : List Vec3
  cov3Col1Buffer : List Vec3
  cov3Col2Buffer : List Vec3

/-- `SplatRenderer::Init` + `BuildVertexArrayObject` (splatrenderer.cpp lines 20-36,
101-158): attribute buffers from the cloud records, `indexVec = [0..N-1]` with the
`(uint32_t)i` cast, a dynamic element buffer from `indexVec`, `depthVec` resized to
N (zero-filled), `keyBuffer` from `depthVec`, `valBuffer` from `indexVec`. -/
def splatInitState (expf : ℚ → ℚ) (cloud : List Gaussian) : SplatState :=
  let numPoints := cloud.length
  let positionVec := cloud.map (fun g => g.position)
  let indexVec := (List.range numPoints).map (fun i => i % U32MOD)
  { positionVec := positionVec
    depthVec := List.replicate numPoints 0
    indexVec := indexVec
    keyBuffer := List.replicate numPoints 0
    valBuffer := indexVec
    elementBuffer := indexVec
    positionBuffer := positionVec
    colorBuffer := cloud.map (splatColorOf expf)
    cov3Col0Buffer := cloud.map (fun g => g.covCol0)
    cov3Col1Buffer := cloud.map (fun g => g.covCol1)
    cov3Col2Buffer := cloud.map (fun g => g.covCol2) }

/-- The "build vecs" block (splatrenderer.cpp lines 45-60): a single host loop over
all `numPoints` primitives writing `depthVec[i] = UINT32_MAX - (uint32_t)(depth *
65536.0f)` with `depth = dot(positionVec[i] - eye, forward)`, and
`indexVec[i] = (uint32_t)i`. -/
def splatBuildPhase (cameraMat : Mat4) (st : SplatState) : SplatState :=
  let numPoints := st.positionVec.length
  let dviv := (List.range numPoints).foldl
    (fun p i =>
      (p.1.set i (depthKey (computeDepth cameraMat (st.positionVec.getD i default))),
       p.2.set i (i % U32MOD)))
    (st.depthVec, st.indexVec)
  { st with depthVec := dviv.1, indexVec := dviv.2 }

/-- The "update buffers" block (splatrenderer.cpp lines 62-67): host-to-device upload
of both arrays, `keyBuffer->Update(depthVec)` and `valBuffer->Update(indexVec)`. -/
def splatUploadPhase (st : SplatState) : SplatState :=
  { st with keyBuffer := st.depthVec, valBuffer := st.indexVec }

/-- The "sort" block (splatrenderer.cpp lines 69-73):
`sorter->sort(keyBuffer, valBuffer, numPoints)`. -/
def splatSortPhase (st : SplatState) : SplatState :=
  let kv := sorterSort st.keyBuffer st.valBuffer st.positionVec.length
  { st with keyBuffer := kv.1, valBuffer := kv.2 }

/-- The "copy sorted indices" block (splatrenderer.cpp lines 75-81):
`glCopyBufferSubData` of `numPoints * sizeof(uint32_t)` bytes from offset 0 of the
value buffer to offset 0 of the vao's element buffer. -/
def splatCopyPhase (st : SplatState) : SplatState :=
  let numPoints := st.positionVec.length
  { st with elementBuffer := st.valBuffer.take numPoints ++ st.elementBuffer.drop numPoints }

/-- `SplatRenderer::Render` (splatrenderer.cpp lines 38-99): build vecs, upload,
sort, device copy, indexed draw over the full element buffer, together with the
trace of device commands the frame issues. -/
def splatRender (cameraMat : Mat4) (st : SplatState) : SplatState × List GLCmd :=
  let numPoints := st.positionVec.length
  let st4 := splatCopyPhase (splatSortPhase (splatUploadPhase (splatBuildPhase cameraMat st)))
  (st4,
   [GLCmd.uploadHostToDevice (4 * numPoints), GLCmd.uploadHostToDevice (4 * numPoints),
    GLCmd.sortDevice numPoints,
    GLCmd.copyDeviceToDevice 0 0 (4 * numPoints),
    GLCmd.drawElements st4.elementBuffer.length])

/-! ### PointRenderer (src/pointrenderer.cpp) -/

/-- One record of the PointCloud container (external per spec §1/§6): a position and
an 8-bit RGB color. -/
structure PointRec where
  position : Vec3
  color0 : ℕ
  color1 : ℕ
  color2 : ℕ

/-- `colorVec` entry (pointrenderer.cpp line 131): `(c/255, c/255, c/255, 1)`. -/
def pointColorOf (p : PointRec) : Vec4 :=
  ⟨(p.color0 : ℚ) / 255, (p.color1 : ℚ) / 255, (p.color2 : ℚ) / 255, 1⟩

/-- The PointRenderer's buffers and host vectors, named after the members of
`PointRenderer`; `posBuffer` is the shader-storage buffer the pre-sort kernel reads,
`elementBuffer` the element buffer of `pointVao`. -/
structure PointState where
  posVec : List Vec4
  indexVec : List ℕ
  depthVec : List ℕ
  keyBuffer : List ℕ
  valBuffer : List ℕ
  posBuffer : List Vec4
  elementBuffer : List ℕ
  positionBuffer : List Vec4
  colorBuffer : List Vec4

/-- `PointRenderer::Init` + `BuildVertexArrayObject` (pointrenderer.cpp lines 20-53,
118-149): `posVec` holds `vec4(position, 1)`, attribute buffers from the cloud,
`indexVec = [0..N-1]` with the `(uint32_t)i` cast, a dynamic element buffer from
`indexVec`, `depthVec` resized to N (zero-filled), `keyBuffer` from `depthVec`,
`valBuffer` from `indexVec`, `posBuffer` from `posVec`. -/
def pointInitState (cloud : List PointRec) : PointState :=
  let numPoints := cloud.length
  let posVec := cloud.map (fun p => (⟨p.position.x, p.position.y, p.position.z, 1⟩ : Vec4))
  let indexVec := (List.range numPoints).map (fun i => i % U32MOD)
  { posVec := posVec
    indexVec := indexVec
    depthVec := List.replicate numPoints 0
    keyBuffer := List.replicate numPoints 0
    valBuffer := indexVec
    posBuffer := posVec
    elementBuffer := indexVec
    positionBuffer := posVec
    colorBuffer := cloud.map pointColorOf }

/-- `((GLuint)numPoints + (LOCAL_SIZE - 1)) / LOCAL_SIZE` with `LOCAL_SIZE = 256`
(pointrenderer.cpp lines 77-78).  The addition is 32-bit unsigned arithmetic,
hence the explicit `% 2^32`. -/
def pointNumGroups (numPoints : ℕ) : ℕ :=
  (numPoints % U32MOD + 255) % U32MOD / 256

/-- Modelled from the spec: one invocation of the pre-sort compute kernel
(`shader/presort_compute.glsl`, not under src).  Spec §4.1: the camera `forward`
and `eye` are uniforms; each invocation `gid` reads one position, computes
`dot(position - eye, forward)`, writes the quantized key (spec §3:
`UINT32_MAX - quantize(depth)` with fractional scale `2^16`) and writes its own
index as the value; trailing invocations with `gid ≥ numPoints` are guarded and
write nothing. -/
def presortInvocation (forward eye : Vec3) (positions : List Vec4) (numPoints gid : ℕ)
    (kv : List ℕ × List ℕ) : List ℕ × List ℕ :=
  if gid < numPoints then
    (kv.1.set gid (specDepthKey (dot3 (sub3 (positions.getD gid default).xyz eye) forward)),
     kv.2.set gid gid)
  else kv

/-- The "depth compute" block (pointrenderer.cpp lines 62-80): bind the pre-sort
program and its `forward`/`eye` uniforms, bind `posBuffer`/`keyBuffer`/`valBuffer`
as storage buffers, dispatch `pointNumGroups` work groups of 256 invocations,
memory barrier. -/
def pointDispatchPhase (cameraMat : Mat4) (st : PointState) : PointState :=
  let numPoints := st.posVec.length
  let kv := (List.range (pointNumGroups numPoints * 256)).foldl
    (fun kv gid =>
      presortInvocation (forwardOf cameraMat) (eyeOf cameraMat) st.posBuffer numPoints gid kv)
    (st.keyBuffer, st.valBuffer)
  { st with keyBuffer := kv.1, valBuffer := kv.2 }

/-- The "sort" block (pointrenderer.cpp lines 82-86):
`sorter->sort(keyBuffer, valBuffer, numPoints)`. -/
def pointSortPhase (st : PointState) : PointState :=
  let kv := sorterSort st.keyBuffer st.valBuffer st.posVec.length
  { st with keyBuffer := kv.1, valBuffer := kv.2 }

/-- The "copy sorted indices" block (pointrenderer.cpp lines 88-94):
`glCopyBufferSubData` of `numPoints * sizeof(uint32_t)` bytes from offset 0 of the
value buffer to offset 0 of the vao's element buffer. -/
def pointCopyPhase (st : PointState) : PointState :=
  let numPoints := st.posVec.length
  { st with elementBuffer := st.valBuffer.take numPoints ++ st.elementBuffer.drop numPoints }

/-- `PointRenderer::Render` (pointrenderer.cpp lines 55-116): dispatch the pre-sort
kernel, barrier, sort, device copy, indexed draw over the full element buffer,
together with the trace of device commands the frame issues. -/
def pointRender (cameraMat : Mat4) (st : PointState) : PointState × List GLCmd :=
  let numPoints := st.posVec.length
  let st4 := pointCopyPhase (pointSortPhase (pointDispatchPhase cameraMat st))
  (st4,
   [GLCmd.dispatchCompute (pointNumGroups numPoints), GLCmd.memoryBarrier,
    GLCmd.sortDevice numPoints,
    GLCmd.copyDeviceToDevice 0 0 (4 * numPoints),
    GLCmd.drawElements st4.elementBuffer.length])

/-! ### Characterizations of the per-frame phases -/

/-! ### Program reflection and load operations (src/core/program.cpp) -/

/-- The `Program` members (program.cpp): GL handles, reflection tables as
name-to-location maps, and the debug name.  `nextHandle` models the GL name
allocator: `glCreateShader`/`glCreateProgram` return fresh nonzero handles. -/
structure ProgramState where
  program : ℕ
  vertShader : ℕ
  geomShader : ℕ
  fragShader : ℕ
  computeShader : ℕ
  uniforms : List (String × Int)
  attribs : List (String × Int)
  debugName : String
  nextHandle : ℕ
deriving DecidableEq

/-- `Program::Program()` (program.cpp line 78): all handles 0, empty tables. -/
def initProgram : ProgramState :=
  { program := 0
    vertShader := 0
    geomShader := 0
    fragShader := 0
    computeShader := 0
    uniforms := []
    attribs := []
    debugName := ""
    nextHandle := 0 }

/-- `Program::Delete` (program.cpp lines 362-379): clears the debug name, deletes
all shaders and the program (handles reset to 0), clears both reflection maps. -/
def deleteProgram (st : ProgramState) : ProgramState :=
  { st with
    debugName := ""
    vertShader := 0
    geomShader := 0
    fragShader := 0
    computeShader := 0
    program := 0
    uniforms := []
    attribs := [] }

/-- The external world a load operation runs against: the file system, the device's
verdict on compiling a given source (program.cpp's warnings-as-errors policy folded
in), the link verdict, the reflection data a successfully linked program reports,
and whether the point texture image loads. -/
structure GLEnv where
  files : List (String × String)
  compiles : String → Bool
  links : Bool
  reflectedUniforms : List (String × Int)
  reflectedAttribs : List (String × Int)
  imageLoads : Bool

/-- Modelled from the spec: `LoadFile` (util.cpp, not under src; spec §1 treats file
loading as an external collaborator) reads a whole file, failing when it is absent
and leaving the caller's output string (initialized empty) unchanged. -/
def loadFile (files : List (String × String)) (filename : String) : Option String :=
  files.lookup filename

/-- `CompileShader` (program.cpp lines 33-76): `glCreateShader` always allocates a
fresh handle; the compile verdict is `env.compiles source`; on failure `*shaderOut`
is not written, so the caller's member keeps its previous value. -/
def compileShaderStep (env : GLEnv) (source : String) (st : ProgramState) :
    Bool × ℕ × ProgramState :=
  (env.compiles source, st.nextHandle + 1, { st with nextHandle := st.nextHandle + 1 })

/-- `glCreateProgram`: a fresh nonzero program handle. -/
def createProgramStep (st : ProgramState) : ℕ × ProgramState :=
  (st.nextHandle + 1, { st with nextHandle := st.nextHandle + 1 })

/-- The source-loading sequence of `Program::LoadVertGeomFrag` (program.cpp lines
108-128): load the vertex, optional geometry, and fragment shader files; the first
failure aborts. -/
def loadShaderSources (files : List (String × String)) (useGeomShader : Bool)
    (vertFilename geomFilename fragFilename : String) :
    Option (String × String × String) :=
  match loadFile files vertFilename with
  | none => none
  | some vertSource =>
    match (if useGeomShader then loadFile files geomFilename else some "") with
    | none => none
    | some geomSource =>
      match loadFile files fragFilename with
      | none => none
      | some fragSource => some (vertSource, geomSource, fragSource)

/-- The compile sequence of `Program::LoadVertGeomFrag` (program.cpp lines 130-149):
compile vertex, optional geometry, and fragment shaders; the first failure returns
false; each success stores the fresh handle in its member field. -/
def compileStage (env : GLEnv) (useGeomShader : Bool)
    (vertSource geomSource fragSource : String) (st : ProgramState) :
    Bool × ProgramState :=
  let cv := compileShaderStep env vertSource st
  if cv.1 = false then (false, cv.2.2) else
  let stv := { cv.2.2 with vertShader := cv.2.1 }
  let stepG : Bool × ProgramState :=
    if useGeomShader then
      let cg := compileShaderStep env geomSource stv
      if cg.1 = false then (false, cg.2.2)
      else (true, { cg.2.2 with geomShader := cg.2.1 })
    else (true, stv)
  if stepG.1 = false then (false, stepG.2) else
  let cf := compileShaderStep env fragSource stepG.2
  if cf.1 = false then (false, cf.2.2) else
  (true, { cf.2.2 with fragShader := cf.2.1 })

/-- The link-and-reflect tail of both load operations (program.cpp lines 151-205
and 227-256): create the program (the member is assigned before the link check),
link, and on success store the reflected uniform — and, for the vert/geom/frag
path, attribute — tables. -/
def linkReflectStage (env : GLEnv) (reflectAttribs : Bool) (st : ProgramState) :
    Bool × ProgramState :=
  let cp := createProgramStep st
  let stp := { cp.2 with program := cp.1 }
  if env.links = false then (false, stp)
  else (true, { stp with
    uniforms := env.reflectedUniforms
    attribs := if reflectAttribs then env.reflectedAttribs else stp.attribs })

/-- `Program::LoadVertGeomFrag` (program.cpp lines 92-206): delete the old program,
set the debug name, load each shader file (failing returns false), run the compile
sequence, then link and reflect. -/
def loadVertGeomFrag (env : GLEnv) (vertFilename geomFilename fragFilename : String)
    (st0 : ProgramState) : Bool × ProgramState :=
  let st1 := deleteProgram st0
  let useGeomShader := geomFilename ≠ ""
  let st := { st1 with debugName :=
    if useGeomShader then vertFilename ++ " + " ++ geomFilename ++ " + " ++ fragFilename
    else vertFilename ++ " + " ++ fragFilename }
  match loadShaderSources env.files useGeomShader vertFilename geomFilename fragFilename with
  | none => (false, st)
  | some sources =>
    let c := compileStage env useGeomShader sources.1 sources.2.1 sources.2.2 st
    if c.1 = false then (false, c.2)
    else linkReflectStage env true c.2

/-- `Program::LoadCompute` (program.cpp lines 208-261): delete the old program, set
the debug name, attempt to load the compute source.  Faithful to the source, a
failed `LoadFile` only logs — there is no early return (unlike `LoadVertGeomFrag`)
— and compilation proceeds with the still-empty source string; then compile, create
the program, link, and on success store the reflected uniforms. -/
def loadCompute (env : GLEnv) (computeFilename : String) (st0 : ProgramState) :
    Bool × ProgramState :=
  let st1 := deleteProgram st0
  let st := { st1 with debugName := computeFilename }
  let computeSource := (loadFile env.files computeFilename).getD ""
  let cc := compileShaderStep env computeSource st
  if cc.1 = false then (false, cc.2.2) else
  let stc := { cc.2.2 with computeShader := cc.2.1 }
  linkReflectStage env false stc

/-- Result of a name lookup: the returned location, and whether the unresolved
branch (with its debug-build `assert(false)`) was taken. -/
structure LookupResult where
  loc : Int
  assertFired : Bool
deriving DecidableEq

/-- `Program::GetUniformLoc` (program.cpp lines 268-281): the reflected location
when the name is found; otherwise the unresolved branch asserts (debug builds),
logs, and returns 0. -/
def getUniformLoc (uniforms : List (String × Int)) (name : String) : LookupResult :=
  match uniforms.lookup name with
  | some loc => { loc := loc, assertFired := false }
  | none => { loc := 0, assertFired := true }

/-- `Program::GetAttribLoc` (program.cpp lines 283-296): same shape as
`GetUniformLoc`. -/
def getAttribLoc (attribs : List (String × Int)) (name : String) : LookupResult :=
  match attribs.lookup name with
  | some loc => { loc := loc, assertFired := false }
  | none => { loc := 0, assertFired := true }

/-- Modelled from the spec (§7, and the GL specification it relies on): the device
call `glUniform1f(loc, v)` against the bound program's uniform store.  Location
`-1` is the silent no-op sentinel; any other location writes the program variable
stored at that location. -/
def glUniform1f (loc : Int) (v : ℚ) (store : Int → ℚ) : Int → ℚ :=
  if loc = -1 then store else Function.update store loc v

/-- `PointRenderer::Init`, load sequencing only (pointrenderer.cpp lines 20-53):
texture image load, point shader program load, pre-sort compute program load; each
reported failure aborts Init with false. -/
def pointInitOk (env : GLEnv) : Bool :=
  if env.imageLoads = false then false
  else if (loadVertGeomFrag env "shader/point_vert.glsl" "shader/point_geom.glsl"
      "shader/point_frag.glsl" initProgram).1 = false then false
  else if (loadCompute env "shader/presort_compute.glsl" initProgram).1 = false then false
  else true

/-- `SplatRenderer::Init`, load sequencing only (splatrenderer.cpp lines 20-27). -/
def splatInitOk (env : GLEnv) : Bool :=
  if (loadVertGeomFrag env "shader/splat_vert.glsl" "shader/splat_geom.glsl"
      "shader/splat_frag.glsl" initProgram).1 = false then false
  else true

/-- The identity camera matrix, used as a concrete frame input in witnesses. -/
def mat4Id : Mat4 := ⟨⟨1,0,0,0⟩, ⟨0,1,0,0⟩, ⟨0,0,1,0⟩, ⟨0,0,0,1⟩⟩

/-- A concrete two-splat cloud: points at depths 1 and 2 in front of the identity
camera (which looks along -z from the origin). -/
def splatCloudW : List Gaussian :=
  [⟨⟨0, 0, -1⟩, 0, 0, 0, 0, ⟨0, 0, 0⟩, ⟨0, 0, 0⟩, ⟨0, 0, 0⟩⟩,
   ⟨⟨0, 0, -2⟩, 0, 0, 0, 0, ⟨0, 0, 0⟩, ⟨0, 0, 0⟩, ⟨0, 0, 0⟩⟩]

/-- The splat renderer state Init builds on `splatCloudW` (with the identity as the
external `expf`; its value is irrelevant to the properties checked on it). -/
def splatStW : SplatState := splatInitState (fun q => q) splatCloudW

/-- A concrete two-point cloud at depths 1 and 2 in front of the identity camera. -/
def pointCloudW : List PointRec :=
  [⟨⟨0, 0, -1⟩, 255, 0, 0⟩, ⟨⟨0, 0, -2⟩, 0, 255, 0⟩]

/-- The point renderer state Init builds on `pointCloudW`. -/
def pointStW : PointState := pointInitState pointCloudW

/-- A file system holding the three point-shader sources but not the pre-sort
compute shader, on a device that accepts any source and links successfully. -/
def envC5 : GLEnv :=
  { files := [("shader/point_vert.glsl", "PV"), ("shader/point_geom.glsl", "PG"),
      ("shader/point_frag.glsl", "PF")]
    compiles := fun _ => true
    links := true
    reflectedUniforms := []
    reflectedAttribs := []
    imageLoads := true }

/-- A device on which the vertex source "V" compiles and the fragment source "F"
does not. -/
def envC10a : GLEnv :=
  { files := [("v.glsl", "V"), ("f.glsl", "F")]
    compiles := fun s => s = "V"
    links := true
    reflectedUniforms := []
    reflectedAttribs := []
    imageLoads := true }

/-- A device on which everything compiles but linking fails. -/
def envC10b : GLEnv :=
  { files := [("v.glsl", "V"), ("f.glsl", "F")]
    compiles := fun _ => true
    links := false
    reflectedUniforms := []
    reflectedAttribs := []
    imageLoads := true }

/-! ### Claims -/

/-! ### Theorems -/

theorem specDepthKey_eq_depthKey (d : ℚ) : specDepthKey d = depthKey d := by
  simp [specDepthKey, depthKey, quantizeDepth]
  norm_num

/-- The quantization is monotone on the representable range. -/
theorem quantizeDepth_mono {d1 d2 : ℚ} (h : d1 ≤ d2) :
    quantizeDepth d1 ≤ quantizeDepth d2 := by
  apply Int.toNat_le_toNat
  apply Int.floor_le_floor
  have h65536 : (0:ℚ) ≤ 65536 := by norm_num
  exact mul_le_mul_of_nonneg_right h h65536

/-- The depth key is antitone in the depth. -/
theorem depthKey_antitone {d1 d2 : ℚ} (h : d1 ≤ d2) :
    depthKey d2 ≤ depthKey d1 :=
  Nat.sub_le_sub_left (quantizeDepth_mono h) UINT32_MAX

theorem setLoop_eq (f : ℕ → α) :
    ∀ (n : ℕ) (l : List α), n ≤ l.length →
      setLoop f l n = (List.range n).map f ++ l.drop n := by
  intro n
  induction n with
  | zero => intro l _; simp [setLoop]
  | succ n ih =>
    intro l hl
    have hn : n ≤ l.length := Nat.le_of_succ_le hl
    have hlt : n < l.length := hl
    have step : setLoop f l (n + 1) = (setLoop f l n).set n (f n) := by
      simp [setLoop, List.range_succ]
    rw [step, ih l hn]
    have hlen : ((List.range n).map f).length = n := by simp
    rw [List.set_append_right n (f n) (by simp)]
    simp only [List.length_map, List.length_range, Nat.sub_self, List.range_succ,
      List.map_append, List.map_cons, List.map_nil, List.append_assoc, List.singleton_append]
    rw [List.drop_eq_getElem_cons hlt, List.set_cons_zero]

theorem setLoop_length (f : ℕ → α) (n : ℕ) (l : List α) :
    (setLoop f l n).length = l.length := by
  unfold setLoop
  induction List.range n generalizing l with
  | nil => rfl
  | cons a as ih => simp [List.foldl_cons, ih]

/-- A fold that updates two arrays independently splits into two folds. -/
theorem foldl_pair_split (g : β → ℕ → β) (h : γ → ℕ → γ) :
    ∀ (xs : List ℕ) (b : β) (c : γ),
      xs.foldl (fun p i => (g p.1 i, h p.2 i)) (b, c) = (xs.foldl g b, xs.foldl h c) := by
  intro xs
  induction xs with
  | nil => intro b c; rfl
  | cons a as ih => intro b c; simp [List.foldl_cons, ih]

/-- A fold whose body is guarded by `i < N` ignores elements `≥ N`. -/
theorem foldl_guard_of_forall (g : β → ℕ → β) (N : ℕ) :
    ∀ (xs : List ℕ) (b : β), (∀ i ∈ xs, i < N) →
      xs.foldl (fun acc i => if i < N then g acc i else acc) b = xs.foldl g b := by
  intro xs
  induction xs with
  | nil => intro b _; rfl
  | cons a as ih =>
    intro b hmem
    have ha : a < N := hmem a (by simp)
    simp only [List.foldl_cons, if_pos ha]
    exact ih _ (fun i hi => hmem i (by simp [hi]))

/-- Folding the guarded body over the whole dispatch range `0..M-1` with `N ≤ M`
equals folding the unguarded body over `0..N-1`. -/
theorem foldl_range_guard (g : β → ℕ → β) (N : ℕ) :
    ∀ (M : ℕ), N ≤ M → ∀ (b : β),
      (List.range M).foldl (fun acc i => if i < N then g acc i else acc) b
        = (List.range N).foldl g b := by
  intro M
  induction M with
  | zero =>
    intro hN b
    have : N = 0 := Nat.le_zero.mp hN
    subst this; rfl
  | succ M ih =>
    intro hN b
    rcases Nat.lt_or_ge N (M + 1) with hlt | hge
    · have hNM : N ≤ M := Nat.lt_succ_iff.mp hlt
      have hnot : ¬ M < N := Nat.not_lt.mpr hNM
      simp only [List.range_succ, List.foldl_append, List.foldl_cons, List.foldl_nil,
        if_neg hnot]
      exact ih hNM b
    · have hEq : N = M + 1 := Nat.le_antisymm hN hge
      subst hEq
      exact foldl_guard_of_forall g (M + 1) (List.range (M + 1)) b
        (fun i hi => List.mem_range.mp hi)

/-- The two-array write loop splits into two independent write loops. -/
theorem foldl_set_pair (f g : ℕ → α) :
    ∀ (xs : List ℕ) (b c : List α),
      xs.foldl (fun p i => (p.1.set i (f i), p.2.set i (g i))) (b, c)
        = (xs.foldl (fun l i => l.set i (f i)) b, xs.foldl (fun l i => l.set i (g i)) c) := by
  intro xs
  induction xs with
  | nil => intro b c; rfl
  | cons a as ih => intro b c; simp [List.foldl_cons, ih]

/-- The `(uint32_t)i` cast is the identity on indices below `2^32`. -/
theorem range_map_mod {N : ℕ} (h : N ≤ U32MOD) :
    (List.range N).map (fun i => i % U32MOD) = List.range N := by
  have hco : ∀ i ∈ List.range N, i % U32MOD = id i := fun i hi =>
    Nat.mod_eq_of_lt (lt_of_lt_of_le (List.mem_range.mp hi) h)
  rw [List.map_congr_left hco, List.map_id]

/-- The host key loop writes exactly the first `N` slots of `depthVec` with the
quantized-key formula and the first `N` slots of `indexVec` with the cast index. -/
theorem splatBuildPhase_spec (cam : Mat4) (st : SplatState)
    (hd : st.positionVec.length ≤ st.depthVec.length)
    (hi : st.positionVec.length ≤ st.indexVec.length) :
    (splatBuildPhase cam st).depthVec
        = (List.range st.positionVec.length).map
            (fun i => depthKey (computeDepth cam (st.positionVec.getD i default)))
          ++ st.depthVec.drop st.positionVec.length
    ∧ (splatBuildPhase cam st).indexVec
        = (List.range st.positionVec.length).map (fun i => i % U32MOD)
          ++ st.indexVec.drop st.positionVec.length := by
  simp only [splatBuildPhase]
  rw [foldl_set_pair (fun i => depthKey (computeDepth cam (st.positionVec.getD i default)))
    (fun i => i % U32MOD)]
  exact ⟨setLoop_eq _ _ _ hd, setLoop_eq _ _ _ hi⟩

/-- Apart from `depthVec` and `indexVec`, the build phase changes nothing. -/
theorem splatBuildPhase_frame (cam : Mat4) (st : SplatState) :
    (splatBuildPhase cam st).positionVec = st.positionVec
    ∧ (splatBuildPhase cam st).keyBuffer = st.keyBuffer
    ∧ (splatBuildPhase cam st).valBuffer = st.valBuffer
    ∧ (splatBuildPhase cam st).elementBuffer = st.elementBuffer := by
  simp [splatBuildPhase]

/-- On the range where the 32-bit addition cannot wrap, the dispatch size is the
usual ceiling formula. -/
theorem pointNumGroups_eq {N : ℕ} (h : N + 255 < U32MOD) :
    pointNumGroups N = (N + 255) / 256 := by
  have hN : N < U32MOD := lt_of_le_of_lt (Nat.le_add_right N 255) h
  simp [pointNumGroups, Nat.mod_eq_of_lt hN, Nat.mod_eq_of_lt h]

/-- On that range the dispatch covers all `N` primitives. -/
theorem pointNumGroups_covers {N : ℕ} (h : N + 255 < U32MOD) :
    N ≤ pointNumGroups N * 256 := by
  rw [pointNumGroups_eq h]
  have h1 := Nat.div_add_mod (N + 255) 256
  have h2 : (N + 255) % 256 < 256 := Nat.mod_lt _ (by norm_num)
  omega

/-- On that range the dispatch launches no full group past the elements
(`numGroups` is the exact ceiling of `N / 256`). -/
theorem pointNumGroups_tight {N : ℕ} (h : N + 255 < U32MOD) :
    pointNumGroups N * 256 < N + 256 := by
  rw [pointNumGroups_eq h]
  have h1 := Nat.div_add_mod (N + 255) 256
  have h2 : (N + 255) % 256 < 256 := Nat.mod_lt _ (by norm_num)
  omega

/-- The dispatch writes exactly the first `N` slots of the key and value buffers:
the quantized key per the spec's formula, and the invocation's own index as value. -/
theorem pointDispatchPhase_spec (cam : Mat4) (st : PointState)
    (hcov : st.posVec.length ≤ pointNumGroups st.posVec.length * 256)
    (hk : st.posVec.length ≤ st.keyBuffer.length)
    (hv : st.posVec.length ≤ st.valBuffer.length) :
    (pointDispatchPhase cam st).keyBuffer
        = (List.range st.posVec.length).map
            (fun i => specDepthKey
              (dot3 (sub3 (st.posBuffer.getD i default).xyz (eyeOf cam)) (forwardOf cam)))
          ++ st.keyBuffer.drop st.posVec.length
    ∧ (pointDispatchPhase cam st).valBuffer
        = List.range st.posVec.length ++ st.valBuffer.drop st.posVec.length := by
  simp only [pointDispatchPhase, presortInvocation]
  rw [foldl_range_guard _ st.posVec.length _ hcov]
  rw [foldl_set_pair
    (fun i => specDepthKey
      (dot3 (sub3 (st.posBuffer.getD i default).xyz (eyeOf cam)) (forwardOf cam)))
    (fun i => i)]
  constructor
  · exact setLoop_eq _ _ _ hk
  · have h2 := setLoop_eq (fun i => i) st.posVec.length st.valBuffer hv
    simpa using h2

/-- Invocations with `gid ≥ numPoints` leave both storage buffers untouched. -/
theorem presortInvocation_guard (forward eye : Vec3) (positions : List Vec4)
    (numPoints gid : ℕ) (kv : List ℕ × List ℕ) (h : numPoints ≤ gid) :
    presortInvocation forward eye positions numPoints gid kv = kv := by
  simp [presortInvocation, Nat.not_lt.mpr h]

/-- Apart from `keyBuffer` and `valBuffer`, the dispatch changes nothing. -/
theorem pointDispatchPhase_frame (cam : Mat4) (st : PointState) :
    (pointDispatchPhase cam st).posVec = st.posVec
    ∧ (pointDispatchPhase cam st).posBuffer = st.posBuffer
    ∧ (pointDispatchPhase cam st).elementBuffer = st.elementBuffer := by
  simp [pointDispatchPhase]

/-- The sorter permutes: with full-buffer counts, the post-sort value buffer is a
permutation of the pre-sort value buffer. -/
theorem sorterSort_snd_perm (keys vals : List ℕ) (count : ℕ)
    (hk : keys.length = count) (hv : vals.length = count) :
    ((sorterSort keys vals count).2).Perm vals := by
  simp only [sorterSort]
  rw [List.take_of_length_le (le_of_eq hk), List.take_of_length_le (le_of_eq hv),
    List.drop_of_length_le (le_of_eq hv), List.append_nil]
  have hperm := (List.perm_insertionSort (fun a b : ℕ × ℕ => a.1 ≤ b.1) (keys.zip vals)).map Prod.snd
  rwa [List.map_snd_zip keys vals (by rw [hk, hv])] at hperm

/-- The sorter preserves both buffer lengths. -/
theorem sorterSort_lengths (keys vals : List ℕ) (count : ℕ)
    (hk : keys.length = count) (hv : vals.length = count) :
    (sorterSort keys vals count).1.length = count
    ∧ (sorterSort keys vals count).2.length = count := by
  have hz := (List.perm_insertionSort (fun a b : ℕ × ℕ => a.1 ≤ b.1)
    ((keys.take count).zip (vals.take count))).length_eq
  constructor <;>
    simp [sorterSort, hz, List.length_zip, hk, hv,
      List.take_of_length_le (le_of_eq hk), List.take_of_length_le (le_of_eq hv)]

/-- Slot `i < N` of the depth array written by the host key loop holds exactly
`UINT32_MAX - (uint32)(dot(position_i - eye, forward) * 65536)`. -/
theorem splatBuildPhase_depthVec_getD (cam : Mat4) (st : SplatState) (i : ℕ)
    (hd : st.positionVec.length ≤ st.depthVec.length)
    (hi : st.positionVec.length ≤ st.indexVec.length)
    (hlt : i < st.positionVec.length) :
    (splatBuildPhase cam st).depthVec.getD i 0
      = UINT32_MAX - quantizeDepth (computeDepth cam (st.positionVec.getD i default)) := by
  rw [(splatBuildPhase_spec cam st hd hi).1]
  rw [List.getD_append _ _ _ _ (by simpa using hlt)]
  rw [List.getD_eq_getElem _ _ (by simpa using hlt)]
  simp [depthKey]

/-- C1: for every frame and every pair of primitives i, j whose camera-relative
depths satisfy d_i < d_j (within the range where the 32-bit cast of the scaled
depth is defined), the computed depth key of i is ≥ the key of j, so ascending key
order is descending depth, i.e. back-to-front draw order. -/
theorem C1_depth_key_order (cam : Mat4) (st : SplatState) (i j : ℕ)
    (hd : st.positionVec.length ≤ st.depthVec.length)
    (hiv : st.positionVec.length ≤ st.indexVec.length)
    (hi : i < st.positionVec.length) (hj : j < st.positionVec.length)
    (hnn : 0 ≤ computeDepth cam (st.positionVec.getD i default))
    (hrep : quantizeDepth (computeDepth cam (st.positionVec.getD j default)) ≤ UINT32_MAX)
    (hij : computeDepth cam (st.positionVec.getD i default)
            < computeDepth cam (st.positionVec.getD j default)) :
    (splatBuildPhase cam st).depthVec.getD j 0
      ≤ (splatBuildPhase cam st).depthVec.getD i 0 := by
  rw [splatBuildPhase_depthVec_getD cam st i hd hiv hi,
    splatBuildPhase_depthVec_getD cam st j hd hiv hj]
  exact Nat.sub_le_sub_left (quantizeDepth_mono (le_of_lt hij)) UINT32_MAX

/-- C1 at a concrete frame: two points at depths 1 < 2 under the identity camera;
the farther point's key is ≤ the nearer point's key. -/
theorem C1_depth_key_order_witness :
    (splatBuildPhase mat4Id splatStW).depthVec.getD 1 0
      ≤ (splatBuildPhase mat4Id splatStW).depthVec.getD 0 0 :=
  C1_depth_key_order mat4Id splatStW 0 1 (by decide) (by decide) (by decide) (by decide)
    (by simp [splatStW, splatCloudW, splatInitState, computeDepth, dot3, sub3,
      forwardOf, eyeOf, Vec4.xyz, mat4Id])
    (by norm_num [splatStW, splatCloudW, splatInitState, computeDepth, dot3, sub3,
      forwardOf, eyeOf, Vec4.xyz, mat4Id, quantizeDepth, UINT32_MAX])
    (by simp [splatStW, splatCloudW, splatInitState, computeDepth, dot3, sub3,
      forwardOf, eyeOf, Vec4.xyz, mat4Id])

/-- Folding kernel invocations never changes the storage buffer lengths (writes are
in-place, never out of bounds in the sense of growing or shrinking a buffer). -/
theorem presortFold_lengths (f e : Vec3) (pos : List Vec4) (N : ℕ) :
    ∀ (l : List ℕ) (kv : List ℕ × List ℕ),
      ((l.foldl (fun kv gid => presortInvocation f e pos N gid kv) kv).1.length
          = kv.1.length)
      ∧ ((l.foldl (fun kv gid => presortInvocation f e pos N gid kv) kv).2.length
          = kv.2.length) := by
  intro l
  induction l with
  | nil => intro kv; exact ⟨rfl, rfl⟩
  | cons a as ih =>
    intro kv
    simp only [List.foldl_cons]
    have hinv : (presortInvocation f e pos N a kv).1.length = kv.1.length
        ∧ (presortInvocation f e pos N a kv).2.length = kv.2.length := by
      unfold presortInvocation
      split <;> simp
    rcases ih (presortInvocation f e pos N a kv) with ⟨h1, h2⟩
    exact ⟨h1.trans hinv.1, h2.trans hinv.2⟩

/-- The dispatch preserves the key and value buffer lengths. -/
theorem pointDispatchPhase_lengths (cam : Mat4) (pst : PointState) :
    (pointDispatchPhase cam pst).keyBuffer.length = pst.keyBuffer.length
    ∧ (pointDispatchPhase cam pst).valBuffer.length = pst.valBuffer.length :=
  ⟨(presortFold_lengths (forwardOf cam) (eyeOf cam) pst.posBuffer pst.posVec.length
      (List.range (pointNumGroups pst.posVec.length * 256))
      (pst.keyBuffer, pst.valBuffer)).1,
   (presortFold_lengths (forwardOf cam) (eyeOf cam) pst.posBuffer pst.posVec.length
      (List.range (pointNumGroups pst.posVec.length * 256))
      (pst.keyBuffer, pst.valBuffer)).2⟩

/-- For every N admitted by the Init-time assert but in the wrap range of the
32-bit dispatch arithmetic (2^32 - 255 ≤ N ≤ 2^32 - 1), the dispatch launches 0
work groups. -/
theorem pointNumGroups_wrap {N : ℕ} (h1 : N ≤ UINT32_MAX) (h2 : ¬ (N + 255 < U32MOD)) :
    pointNumGroups N = 0 := by
  simp only [pointNumGroups, U32MOD] at *
  simp only [UINT32_MAX] at h1
  omega

/-- A dispatch of 0 work groups runs no invocation: both storage buffers are left
exactly as they were. -/
theorem pointDispatchPhase_zero_groups (cam : Mat4) (pst : PointState)
    (h : pointNumGroups pst.posVec.length = 0) :
    (pointDispatchPhase cam pst).keyBuffer = pst.keyBuffer
    ∧ (pointDispatchPhase cam pst).valBuffer = pst.valBuffer := by
  refine ⟨?_, ?_⟩ <;> simp [pointDispatchPhase, h]

/-- A dispatch whose group count is 0 performs no reset: the value buffer keeps
whatever the previous frame left in it. -/
theorem pointDispatchPhase_noReset (cam : Mat4) (N : ℕ) (posv posb : List Vec4)
    (iv dv kb vb eb : List ℕ) (pb cb : List Vec4)
    (hlen : posv.length = N) (hng : pointNumGroups N = 0) :
    (pointDispatchPhase cam ⟨posv, iv, dv, kb, vb, posb, eb, pb, cb⟩).valBuffer = vb := by
  have h : pointNumGroups
      ((⟨posv, iv, dv, kb, vb, posb, eb, pb, cb⟩ : PointState)).posVec.length = 0 := by
    show pointNumGroups posv.length = 0
    rw [hlen]
    exact hng
  exact (pointDispatchPhase_zero_groups cam _ h).2

/-- C2 as stated ("for all N and all frames") is false on the point path at
N = 2^32 - 1, a value the Init-time assert `numPoints <= UINT32_MAX` admits: the
wrapped 32-bit dispatch count is 0 (the same wrap as C7), so no kernel invocation
runs and the value buffer is not reset before the sort.  The state below is a
frame-2 situation: the pre-dispatch value buffer holds the previous frame's
permutation (here the back-to-front reversal of 0..N-1); the dispatch leaves it
unchanged, and it is not the identity. -/
theorem C2_counterexample :
    pointNumGroups 4294967295 = 0
    ∧ (pointDispatchPhase mat4Id
        ⟨List.replicate 4294967295 ⟨0, 0, 0, 1⟩, [], [],
         List.replicate 4294967295 0, (List.range 4294967295).reverse,
         List.replicate 4294967295 ⟨0, 0, 0, 1⟩, [], [], []⟩).valBuffer
        = (List.range 4294967295).reverse
    ∧ (List.range 4294967295).reverse ≠ List.range 4294967295 := by
  refine ⟨rfl,
    pointDispatchPhase_noReset mat4Id 4294967295 _ _ _ _ _ _ _ _ _
      (by rw [List.length_replicate]) rfl, ?_⟩
  intro heq
  have h1 : (List.range 4294967295).reverse.head? = (List.range 4294967295).head? := by
    rw [heq]
  rw [List.head?_reverse, List.getLast?_range, List.head?_range] at h1
  norm_num at h1

/-- C2 amended: before every sort the value buffer is reset to the identity
permutation — on the splat path by the host loop + upload for every admitted N,
and on the point path by the pre-sort kernel for every N in the non-wrapping
dispatch range N + 255 < 2^32 (for larger admitted N the wrapped dispatch runs no
invocation and the buffer keeps the previous frame's contents); and for every
admitted N on both paths the post-sort value buffer is a permutation of `0..N-1`,
given that the point path's pre-frame value buffer is one (which Init establishes
and, by this very statement, every frame maintains).  Buffer lengths are as Init
creates them. -/
theorem C2_permutation_invariant (cam : Mat4) (st : SplatState) (pst : PointState)
    (hd : st.depthVec.length = st.positionVec.length)
    (hiv : st.indexVec.length = st.positionVec.length)
    (hN : st.positionVec.length ≤ U32MOD)
    (hpk : pst.keyBuffer.length = pst.posVec.length)
    (hpv : pst.valBuffer.length = pst.posVec.length)
    (hpN : pst.posVec.length ≤ UINT32_MAX)
    (hperm : pst.valBuffer.Perm (List.range pst.posVec.length)) :
    ((splatUploadPhase (splatBuildPhase cam st)).valBuffer
        = List.range st.positionVec.length
      ∧ ((splatRender cam st).1.valBuffer).Perm (List.range st.positionVec.length))
    ∧ ((pst.posVec.length + 255 < U32MOD →
          (pointDispatchPhase cam pst).valBuffer = List.range pst.posVec.length)
      ∧ ((pointDispatchPhase cam pst).valBuffer).Perm (List.range pst.posVec.length)
      ∧ ((pointRender cam pst).1.valBuffer).Perm (List.range pst.posVec.length)) := by
  have hbspec := splatBuildPhase_spec cam st hd.ge hiv.ge
  have hIdent : (splatBuildPhase cam st).indexVec = List.range st.positionVec.length := by
    rw [hbspec.2, range_map_mod hN, List.drop_of_length_le hiv.le, List.append_nil]
  have hKeyLen : (splatBuildPhase cam st).depthVec.length = st.positionVec.length := by
    rw [hbspec.1]
    simp [hd]
  have hA : (splatUploadPhase (splatBuildPhase cam st)).valBuffer
      = List.range st.positionVec.length := by
    simpa [splatUploadPhase] using hIdent
  have hB : ((splatRender cam st).1.valBuffer).Perm (List.range st.positionVec.length) := by
    have hv : (splatRender cam st).1.valBuffer
        = (sorterSort (splatBuildPhase cam st).depthVec
            (splatUploadPhase (splatBuildPhase cam st)).valBuffer
            st.positionVec.length).2 := rfl
    rw [hv, hA]
    exact sorterSort_snd_perm _ _ _ hKeyLen (by simp)
  have hreset : pst.posVec.length + 255 < U32MOD →
      (pointDispatchPhase cam pst).valBuffer = List.range pst.posVec.length := by
    intro hw
    rw [(pointDispatchPhase_spec cam pst (pointNumGroups_covers hw) hpk.ge hpv.ge).2,
      List.drop_of_length_le hpv.le, List.append_nil]
  have hdperm : ((pointDispatchPhase cam pst).valBuffer).Perm
      (List.range pst.posVec.length) := by
    by_cases hw : pst.posVec.length + 255 < U32MOD
    · rw [hreset hw]
    · rw [(pointDispatchPhase_zero_groups cam pst (pointNumGroups_wrap hpN hw)).2]
      exact hperm
  have hlens := pointDispatchPhase_lengths cam pst
  have hPB : ((pointRender cam pst).1.valBuffer).Perm (List.range pst.posVec.length) := by
    have hv : (pointRender cam pst).1.valBuffer
        = (sorterSort (pointDispatchPhase cam pst).keyBuffer
            (pointDispatchPhase cam pst).valBuffer pst.posVec.length).2 := rfl
    rw [hv]
    exact (sorterSort_snd_perm _ _ _ (hlens.1.trans hpk) (hlens.2.trans hpv)).trans hdperm
  exact ⟨⟨hA, hB⟩, ⟨hreset, hdperm, hPB⟩⟩

/-- C2 amended, at a concrete frame: the two-element states built by Init satisfy
the length and permutation side conditions, the pre-sort value buffer is the
identity `[0, 1]` on both paths, and the post-render value buffers are
permutations of `[0, 1]`. -/
theorem C2_permutation_invariant_witness :
    splatStW.depthVec.length = splatStW.positionVec.length
    ∧ (splatUploadPhase (splatBuildPhase mat4Id splatStW)).valBuffer
        = List.range splatStW.positionVec.length
    ∧ (pointDispatchPhase mat4Id pointStW).valBuffer = List.range pointStW.posVec.length
    ∧ ((pointRender mat4Id pointStW).1.valBuffer).Perm
        (List.range pointStW.posVec.length) :=
  ⟨by decide,
   (C2_permutation_invariant mat4Id splatStW pointStW (by decide) (by decide) (by decide)
      (by decide) (by decide) (by decide) (by decide)).1.1,
   (C2_permutation_invariant mat4Id splatStW pointStW (by decide) (by decide) (by decide)
      (by decide) (by decide) (by decide) (by decide)).2.1 (by decide),
   (C2_permutation_invariant mat4Id splatStW pointStW (by decide) (by decide) (by decide)
      (by decide) (by decide) (by decide) (by decide)).2.2.2⟩

/-- C3: for every primitive i the host-sequential key producer writes
`key_i = UINT32_MAX - (uint32)(dot(position_i - eye, forward) * 65536)` with
`forward` the rotation part of the camera matrix applied to (0,0,-1) and `eye` its
translation column; the device-parallel variant's quantization (fractional scale
2^16, modelled from the spec) is the same formula; and both the key and the value
arrays are then uploaded host-to-device. -/
theorem C3_key_formula (cam : Mat4) (st : SplatState) (i : ℕ)
    (hd : st.positionVec.length ≤ st.depthVec.length)
    (hiv : st.positionVec.length ≤ st.indexVec.length)
    (hi : i < st.positionVec.length) :
    (splatBuildPhase cam st).depthVec.getD i 0
        = UINT32_MAX - quantizeDepth
            (dot3 (sub3 (st.positionVec.getD i default) (eyeOf cam)) (forwardOf cam))
    ∧ (∀ d : ℚ, specDepthKey d = depthKey d)
    ∧ (splatUploadPhase (splatBuildPhase cam st)).keyBuffer
        = (splatBuildPhase cam st).depthVec
    ∧ (splatUploadPhase (splatBuildPhase cam st)).valBuffer
        = (splatBuildPhase cam st).indexVec
    ∧ GLCmd.uploadHostToDevice (4 * st.positionVec.length) ∈ (splatRender cam st).2 :=
  ⟨splatBuildPhase_depthVec_getD cam st i hd hiv hi,
   specDepthKey_eq_depthKey, rfl, rfl, by simp [splatRender]⟩

/-- C3 at a concrete frame: slot 0 of the key array equals the quantization formula
applied to the first point, and the upload phase copies the host arrays into the
device buffers. -/
theorem C3_key_formula_witness :
    ((splatBuildPhase mat4Id splatStW).depthVec.getD 0 0
        = UINT32_MAX - quantizeDepth
            (dot3 (sub3 (splatStW.positionVec.getD 0 default) (eyeOf mat4Id))
              (forwardOf mat4Id)))
    ∧ (splatUploadPhase (splatBuildPhase mat4Id splatStW)).keyBuffer
        = (splatBuildPhase mat4Id splatStW).depthVec :=
  ⟨(C3_key_formula mat4Id splatStW 0 (by decide) (by decide) (by decide)).1,
   (C3_key_formula mat4Id splatStW 0 (by decide) (by decide) (by decide)).2.2.1⟩

/-- C4 as stated is false at a concrete input: for a program whose reflected
uniform "viewMat" sits at location 0, looking up a missing name returns location 0
— a valid location, not the GL no-op sentinel -1 — and the subsequent device call
writes the program variable at location 0 (value 5 lands in the store), whereas a
true no-op sentinel call (location -1) leaves the store unchanged. -/
theorem C4_counterexample :
    (getUniformLoc [("viewMat", 0)] "missing").loc = 0
    ∧ glUniform1f (getUniformLoc [("viewMat", 0)] "missing").loc 5 (fun _ => 0) 0 = 5
    ∧ glUniform1f (-1) 5 (fun _ => 0) 0 = 0 :=
  ⟨rfl, rfl, rfl⟩

/-- C4 amended: for every uniform or attribute name not present in the reflected
program, the lookup asserts in debug builds and in release returns location 0 —
which is a valid location, so the subsequent device call targets location 0 and can
modify a real program variable rather than being a silent no-op. -/
theorem C4_unresolved_lookup (uniforms attribs : List (String × Int)) (name : String)
    (hu : uniforms.lookup name = none) (ha : attribs.lookup name = none) :
    getUniformLoc uniforms name = { loc := 0, assertFired := true }
    ∧ getAttribLoc attribs name = { loc := 0, assertFired := true }
    ∧ ∀ v store, glUniform1f (getUniformLoc uniforms name).loc v store
        = Function.update store 0 v := by
  refine ⟨by simp [getUniformLoc, hu], by simp [getAttribLoc, ha], ?_⟩
  intro v store
  simp [getUniformLoc, hu, glUniform1f]

/-- C4 amended, at a concrete input: the missing name "missing" is absent from the
reflected table, the lookup returns location 0 with the assert fired. -/
theorem C4_unresolved_lookup_witness :
    List.lookup "missing" [("viewMat", (0 : Int))] = none
    ∧ getUniformLoc [("viewMat", 0)] "missing" = { loc := 0, assertFired := true } :=
  ⟨rfl, (C4_unresolved_lookup [("viewMat", 0)] [("viewMat", 0)] "missing" rfl rfl).1⟩

/-- C5, evaluated at the failing input: with `shader/presort_compute.glsl` absent
from the file system and a device that accepts the (empty) source and links,
`LoadCompute` logs the load failure but — missing the early return its sibling
`LoadVertGeomFrag` has — proceeds to compile the empty source and returns true, and
`PointRenderer::Init` does not abort.  The surrounding conjuncts show the intended
abort behavior everywhere else: a missing vertex shader file fails
`LoadVertGeomFrag`, and a failed texture image load fails Init. -/
theorem C5_loadCompute_missing_file :
    loadFile envC5.files "shader/presort_compute.glsl" = none
    ∧ (loadCompute envC5 "shader/presort_compute.glsl" initProgram).1 = true
    ∧ pointInitOk envC5 = true
    ∧ (loadVertGeomFrag envC5 "shader/splat_vert.glsl" "" "shader/point_frag.glsl"
        initProgram).1 = false
    ∧ pointInitOk { envC5 with imageLoads := false } = false :=
  ⟨rfl, rfl, rfl, rfl, rfl⟩

/-- C6: in every frame, after the sort, exactly N x 4 bytes are copied from offset 0
of the sorter's value buffer to offset 0 of the element buffer by a device-to-device
copy; no command of either frame trace moves data device-to-host; and afterwards the
element buffer equals the post-sort value buffer, so draw order reflects the current
frame's permutation.  Buffer lengths are as Init creates them. -/
theorem C6_device_copy (cam : Mat4) (st : SplatState) (pst : PointState)
    (hd : st.depthVec.length = st.positionVec.length)
    (hiv : st.indexVec.length = st.positionVec.length)
    (he : st.elementBuffer.length = st.positionVec.length)
    (hpk : pst.keyBuffer.length = pst.posVec.length)
    (hpv : pst.valBuffer.length = pst.posVec.length)
    (hpe : pst.elementBuffer.length = pst.posVec.length) :
    ((splatRender cam st).2
        = [GLCmd.uploadHostToDevice (4 * st.positionVec.length),
           GLCmd.uploadHostToDevice (4 * st.positionVec.length),
           GLCmd.sortDevice st.positionVec.length,
           GLCmd.copyDeviceToDevice 0 0 (4 * st.positionVec.length),
           GLCmd.drawElements st.positionVec.length]
      ∧ (∀ n, GLCmd.readbackDeviceToHost n ∉ (splatRender cam st).2)
      ∧ (splatRender cam st).1.elementBuffer = (splatRender cam st).1.valBuffer)
    ∧ ((pointRender cam pst).2
        = [GLCmd.dispatchCompute (pointNumGroups pst.posVec.length), GLCmd.memoryBarrier,
           GLCmd.sortDevice pst.posVec.length,
           GLCmd.copyDeviceToDevice 0 0 (4 * pst.posVec.length),
           GLCmd.drawElements pst.posVec.length]
      ∧ (∀ n, GLCmd.readbackDeviceToHost n ∉ (pointRender cam pst).2)
      ∧ (pointRender cam pst).1.elementBuffer = (pointRender cam pst).1.valBuffer) := by
  have hKeyLen : (splatBuildPhase cam st).depthVec.length = st.positionVec.length := by
    rw [(splatBuildPhase_spec cam st hd.ge hiv.ge).1]
    simp [hd]
  have hValLen : (splatBuildPhase cam st).indexVec.length = st.positionVec.length := by
    rw [(splatBuildPhase_spec cam st hd.ge hiv.ge).2]
    simp [hiv]
  have hSortLens := sorterSort_lengths (splatBuildPhase cam st).depthVec
    (splatBuildPhase cam st).indexVec st.positionVec.length hKeyLen hValLen
  have hElem : (splatRender cam st).1.elementBuffer = (splatRender cam st).1.valBuffer := by
    have h1 : (splatRender cam st).1.elementBuffer
        = ((sorterSort (splatBuildPhase cam st).depthVec (splatBuildPhase cam st).indexVec
            st.positionVec.length).2).take st.positionVec.length
          ++ st.elementBuffer.drop st.positionVec.length := rfl
    rw [h1, List.take_of_length_le (le_of_eq hSortLens.2),
      List.drop_of_length_le he.le, List.append_nil]
    rfl
  have hDrawLen : (splatRender cam st).1.elementBuffer.length = st.positionVec.length := by
    rw [hElem]
    exact hSortLens.2
  have hTrace : (splatRender cam st).2
      = [GLCmd.uploadHostToDevice (4 * st.positionVec.length),
         GLCmd.uploadHostToDevice (4 * st.positionVec.length),
         GLCmd.sortDevice st.positionVec.length,
         GLCmd.copyDeviceToDevice 0 0 (4 * st.positionVec.length),
         GLCmd.drawElements st.positionVec.length] := by
    have h0 : (splatRender cam st).2
        = [GLCmd.uploadHostToDevice (4 * st.positionVec.length),
           GLCmd.uploadHostToDevice (4 * st.positionVec.length),
           GLCmd.sortDevice st.positionVec.length,
           GLCmd.copyDeviceToDevice 0 0 (4 * st.positionVec.length),
           GLCmd.drawElements (splatRender cam st).1.elementBuffer.length] := rfl
    rw [h0, hDrawLen]
  have hPDL := pointDispatchPhase_lengths cam pst
  have hPSortLens := sorterSort_lengths (pointDispatchPhase cam pst).keyBuffer
    (pointDispatchPhase cam pst).valBuffer pst.posVec.length
    (hPDL.1.trans hpk) (hPDL.2.trans hpv)
  have hPElem : (pointRender cam pst).1.elementBuffer = (pointRender cam pst).1.valBuffer := by
    have h1 : (pointRender cam pst).1.elementBuffer
        = ((sorterSort (pointDispatchPhase cam pst).keyBuffer
            (pointDispatchPhase cam pst).valBuffer pst.posVec.length).2).take
              pst.posVec.length
          ++ pst.elementBuffer.drop pst.posVec.length := rfl
    rw [h1, List.take_of_length_le (le_of_eq hPSortLens.2),
      List.drop_of_length_le hpe.le, List.append_nil]
    rfl
  have hPDrawLen : (pointRender cam pst).1.elementBuffer.length = pst.posVec.length := by
    rw [hPElem]
    exact hPSortLens.2
  have hPTrace : (pointRender cam pst).2
      = [GLCmd.dispatchCompute (pointNumGroups pst.posVec.length), GLCmd.memoryBarrier,
         GLCmd.sortDevice pst.posVec.length,
         GLCmd.copyDeviceToDevice 0 0 (4 * pst.posVec.length),
         GLCmd.drawElements pst.posVec.length] := by
    have h0 : (pointRender cam pst).2
        = [GLCmd.dispatchCompute (pointNumGroups pst.posVec.length), GLCmd.memoryBarrier,
           GLCmd.sortDevice pst.posVec.length,
           GLCmd.copyDeviceToDevice 0 0 (4 * pst.posVec.length),
           GLCmd.drawElements (pointRender cam pst).1.elementBuffer.length] := rfl
    rw [h0, hPDrawLen]
  refine ⟨⟨hTrace, ?_, hElem⟩, ⟨hPTrace, ?_, hPElem⟩⟩
  · intro n
    rw [hTrace]
    simp
  · intro n
    rw [hPTrace]
    simp

/-- C6 at a concrete frame, on the two-element Init states: the splat trace is
exactly upload, upload, sort 2, an 8-byte device-to-device copy at offsets 0, and a
draw of 2 elements, and the element buffer afterwards equals the post-sort value
buffer. -/
theorem C6_device_copy_witness :
    (splatRender mat4Id splatStW).2
        = [GLCmd.uploadHostToDevice 8, GLCmd.uploadHostToDevice 8, GLCmd.sortDevice 2,
           GLCmd.copyDeviceToDevice 0 0 8, GLCmd.drawElements 2]
    ∧ (pointRender mat4Id pointStW).1.elementBuffer
        = (pointRender mat4Id pointStW).1.valBuffer :=
  ⟨(C6_device_copy mat4Id splatStW pointStW (by decide) (by decide) (by decide)
      (by decide) (by decide) (by decide)).1.1,
   (C6_device_copy mat4Id splatStW pointStW (by decide) (by decide) (by decide)
      (by decide) (by decide) (by decide)).2.2.2⟩

/-- The first command of every point-renderer frame trace is the compute dispatch
with the group count the code computes. -/
theorem pointRender_trace_head (cam : Mat4) (pst : PointState) :
    (pointRender cam pst).2.head?
      = some (GLCmd.dispatchCompute (pointNumGroups pst.posVec.length)) := rfl

/-- C7 as stated ("for every N") is false at N = 2^32 - 1 (a value the Init-time
assert `numPoints <= UINT32_MAX` still admits): the 32-bit addition
`(GLuint)numPoints + 255` wraps, so the dispatch launches 0 work groups instead of
the ⌈N/256⌉ = 16777216 the claim requires, covers no primitive, and the frame built
on such a cloud indeed dispatches 0 groups. -/
theorem C7_counterexample :
    pointNumGroups 4294967295 = 0
    ∧ (4294967295 + 256 - 1) / 256 = 16777216
    ∧ ¬ (4294967295 ≤ pointNumGroups 4294967295 * 256)
    ∧ (pointRender mat4Id
        (pointInitState (List.replicate 4294967295 ⟨⟨0, 0, 0⟩, 0, 0, 0⟩))).2.head?
        = some (GLCmd.dispatchCompute 0) := by
  have hng : pointNumGroups 4294967295 = 0 := rfl
  refine ⟨hng, rfl, by norm_num [pointNumGroups, U32MOD], ?_⟩
  have hlen : (pointInitState
      (List.replicate 4294967295 (⟨⟨0, 0, 0⟩, 0, 0, 0⟩ : PointRec))).posVec.length
      = 4294967295 := by
    simp only [pointInitState, List.length_map, List.length_replicate]
  rw [pointRender_trace_head, hlen, hng]

/-- C7 amended: for every N in the range where the 32-bit addition cannot wrap
(N + 255 < 2^32), the device-parallel key producer dispatches exactly ⌈N/256⌉ work
groups of fixed size 256, covering all N primitives with no full group to spare;
trailing invocations with index ≥ N write nothing, so slots ≥ N of both storage
buffers are untouched and the buffer lengths never change. -/
theorem C7_dispatch (cam : Mat4) (pst : PointState)
    (hN : pst.posVec.length + 255 < U32MOD)
    (hpk : pst.keyBuffer.length = pst.posVec.length)
    (hpv : pst.valBuffer.length = pst.posVec.length) :
    pointNumGroups pst.posVec.length = (pst.posVec.length + 256 - 1) / 256
    ∧ pst.posVec.length ≤ pointNumGroups pst.posVec.length * 256
    ∧ pointNumGroups pst.posVec.length * 256 < pst.posVec.length + 256
    ∧ (∀ forward eye positions gid kv, pst.posVec.length ≤ gid →
        presortInvocation forward eye positions pst.posVec.length gid kv = kv)
    ∧ (pointDispatchPhase cam pst).keyBuffer.drop pst.posVec.length
        = pst.keyBuffer.drop pst.posVec.length
    ∧ (pointDispatchPhase cam pst).valBuffer.drop pst.posVec.length
        = pst.valBuffer.drop pst.posVec.length
    ∧ (pointDispatchPhase cam pst).keyBuffer.length = pst.keyBuffer.length
    ∧ (pointDispatchPhase cam pst).valBuffer.length = pst.valBuffer.length := by
  have hcov := pointNumGroups_covers hN
  have hdspec := pointDispatchPhase_spec cam pst hcov hpk.ge hpv.ge
  refine ⟨pointNumGroups_eq hN, hcov, pointNumGroups_tight hN,
    fun forward eye positions gid kv hg => presortInvocation_guard _ _ _ _ _ _ hg,
    ?_, ?_, (pointDispatchPhase_lengths cam pst).1, (pointDispatchPhase_lengths cam pst).2⟩
  · rw [hdspec.1]
    exact List.drop_left' (by simp)
  · rw [hdspec.2]
    exact List.drop_left' (by simp)

/-- C7 amended, at a concrete frame: the two-point state dispatches ⌈2/256⌉ = 1
group of 256 invocations, covering both primitives, and the trailing 254
invocations leave the buffers' tails untouched. -/
theorem C7_dispatch_witness :
    pointStW.posVec.length + 255 < U32MOD
    ∧ pointNumGroups pointStW.posVec.length = 1
    ∧ pointStW.posVec.length ≤ pointNumGroups pointStW.posVec.length * 256 :=
  ⟨by decide, by
    have h := (C7_dispatch mat4Id pointStW (by decide) (by decide) (by decide)).1
    simpa using h,
   (C7_dispatch mat4Id pointStW (by decide) (by decide) (by decide)).2.1⟩

/-- C8: a Render call mutates only the key, value, and element buffers: the
position, color, and covariance attribute buffers (and the host source vectors the
keys are computed from) are unchanged by every Render call on both paths, and hence
across any sequence of frames they keep the values Init wrote into them. -/
theorem C8_attribute_buffers_immutable (cam : Mat4) (st : SplatState) (pst : PointState)
    (cams : List Mat4) :
    ((splatRender cam st).1.positionBuffer = st.positionBuffer
      ∧ (splatRender cam st).1.colorBuffer = st.colorBuffer
      ∧ (splatRender cam st).1.cov3Col0Buffer = st.cov3Col0Buffer
      ∧ (splatRender cam st).1.cov3Col1Buffer = st.cov3Col1Buffer
      ∧ (splatRender cam st).1.cov3Col2Buffer = st.cov3Col2Buffer
      ∧ (splatRender cam st).1.positionVec = st.positionVec)
    ∧ ((pointRender cam pst).1.positionBuffer = pst.positionBuffer
      ∧ (pointRender cam pst).1.colorBuffer = pst.colorBuffer
      ∧ (pointRender cam pst).1.posBuffer = pst.posBuffer
      ∧ (pointRender cam pst).1.posVec = pst.posVec)
    ∧ ((cams.foldl (fun s c => (splatRender c s).1) st).positionBuffer = st.positionBuffer
      ∧ (cams.foldl (fun s c => (splatRender c s).1) st).colorBuffer = st.colorBuffer
      ∧ (cams.foldl (fun s c => (splatRender c s).1) st).cov3Col0Buffer = st.cov3Col0Buffer
      ∧ (cams.foldl (fun s c => (splatRender c s).1) st).cov3Col1Buffer = st.cov3Col1Buffer
      ∧ (cams.foldl (fun s c => (splatRender c s).1) st).cov3Col2Buffer = st.cov3Col2Buffer
      ∧ (cams.foldl (fun s c => (pointRender c s).1) pst).positionBuffer = pst.positionBuffer
      ∧ (cams.foldl (fun s c => (pointRender c s).1) pst).colorBuffer = pst.colorBuffer
      ∧ (cams.foldl (fun s c => (pointRender c s).1) pst).posBuffer = pst.posBuffer) := by
  refine ⟨⟨rfl, rfl, rfl, rfl, rfl, rfl⟩, ⟨rfl, rfl, rfl, rfl⟩, ?_⟩
  induction cams generalizing st pst with
  | nil => exact ⟨rfl, rfl, rfl, rfl, rfl, rfl, rfl, rfl⟩
  | cons c cs ih =>
    simp only [List.foldl_cons]
    exact ih (splatRender c st).1 (pointRender c pst).1

/-- C9: rendering with N = 0 primitives is a no-op on both paths: the key loop does
no element work and the dispatch launches 0 groups, the sort receives count 0, the
copy transfers 0 bytes, the draw is a zero-count draw, and the renderer state —
including every (empty) buffer — is unchanged. -/
theorem C9_empty_render (cam : Mat4) (st : SplatState) (pst : PointState)
    (h0 : st.positionVec = []) (hdv : st.depthVec = []) (hiv : st.indexVec = [])
    (hkb : st.keyBuffer = []) (hvb : st.valBuffer = []) (heb : st.elementBuffer = [])
    (hp0 : pst.posVec = []) (hpk : pst.keyBuffer = []) (hpv : pst.valBuffer = [])
    (hpe : pst.elementBuffer = []) :
    (splatRender cam st).1 = st
    ∧ (splatRender cam st).2
        = [GLCmd.uploadHostToDevice 0, GLCmd.uploadHostToDevice 0, GLCmd.sortDevice 0,
           GLCmd.copyDeviceToDevice 0 0 0, GLCmd.drawElements 0]
    ∧ pointNumGroups 0 = 0
    ∧ (pointRender cam pst).1 = pst
    ∧ (pointRender cam pst).2
        = [GLCmd.dispatchCompute 0, GLCmd.memoryBarrier, GLCmd.sortDevice 0,
           GLCmd.copyDeviceToDevice 0 0 0, GLCmd.drawElements 0] := by
  obtain ⟨pv, dv, iv, kb, vb, eb, pb, cb, c0, c1, c2⟩ := st
  obtain ⟨ppv, piv, pdv, pkb, pvb, ppb, peb, ppb2, pcb⟩ := pst
  simp only at h0 hdv hiv hkb hvb heb hp0 hpk hpv hpe
  subst h0 hdv hiv hkb hvb heb hp0 hpk hpv hpe
  have hp : pointRender cam ⟨[], piv, pdv, [], [], ppb, [], ppb2, pcb⟩
      = (⟨[], piv, pdv, [], [], ppb, [], ppb2, pcb⟩,
         [GLCmd.dispatchCompute 0, GLCmd.memoryBarrier, GLCmd.sortDevice 0,
          GLCmd.copyDeviceToDevice 0 0 0, GLCmd.drawElements 0]) := by
    simp only [pointRender, pointCopyPhase, pointSortPhase, pointDispatchPhase]
    rfl
  exact ⟨rfl, rfl, rfl, congrArg Prod.fst hp, congrArg Prod.snd hp⟩

/-- C9 at a concrete input: the states Init builds from empty clouds render to
themselves with the all-zero trace. -/
theorem C9_empty_render_witness :
    (splatRender mat4Id (splatInitState (fun q => q) [])).1
        = splatInitState (fun q => q) []
    ∧ (pointRender mat4Id (pointInitState [])).2
        = [GLCmd.dispatchCompute 0, GLCmd.memoryBarrier, GLCmd.sortDevice 0,
           GLCmd.copyDeviceToDevice 0 0 0, GLCmd.drawElements 0] :=
  ⟨(C9_empty_render mat4Id (splatInitState (fun q => q) []) (pointInitState [])
      rfl rfl rfl rfl rfl rfl rfl rfl rfl rfl).1,
   (C9_empty_render mat4Id (splatInitState (fun q => q) []) (pointInitState [])
      rfl rfl rfl rfl rfl rfl rfl rfl rfl rfl).2.2.2.2⟩

/-- C10 as stated is false at a concrete input: with a vertex shader that compiles
and a fragment shader that fails to compile, LoadVertGeomFrag returns false but the
Program keeps the compiled vertex shader handle (1, nonzero) — not "no shaders";
and with everything compiling but linking failing, the failed load leaves a nonzero
program handle.  (The reflection maps are empty in both cases.) -/
theorem C10_counterexample :
    (loadVertGeomFrag envC10a "v.glsl" "" "f.glsl" initProgram).1 = false
    ∧ (loadVertGeomFrag envC10a "v.glsl" "" "f.glsl" initProgram).2.vertShader = 1
    ∧ (loadVertGeomFrag envC10b "v.glsl" "" "f.glsl" initProgram).1 = false
    ∧ (loadVertGeomFrag envC10b "v.glsl" "" "f.glsl" initProgram).2.program = 3
    ∧ (loadVertGeomFrag envC10a "v.glsl" "" "f.glsl" initProgram).2.uniforms = []
    ∧ (loadVertGeomFrag envC10a "v.glsl" "" "f.glsl" initProgram).2.attribs = [] :=
  ⟨rfl, rfl, rfl, rfl, rfl, rfl⟩

/-- The compile sequence never touches the reflection tables. -/
theorem compileStage_maps (env : GLEnv) (ug : Bool) (vs gs fs : String)
    (st : ProgramState) :
    (compileStage env ug vs gs fs st).2.uniforms = st.uniforms
    ∧ (compileStage env ug vs gs fs st).2.attribs = st.attribs := by
  cases hug : ug <;> cases hcv : env.compiles vs <;> cases hcg : env.compiles gs
    <;> cases hcf : env.compiles fs <;>
    simp [compileStage, compileShaderStep, hcv, hcg, hcf]

/-- A failed link leaves the reflection tables as they were. -/
theorem linkReflectStage_fail_maps (env : GLEnv) (b : Bool) (st : ProgramState) :
    (linkReflectStage env b st).1 = false →
      (linkReflectStage env b st).2.uniforms = st.uniforms
      ∧ (linkReflectStage env b st).2.attribs = st.attribs := by
  unfold linkReflectStage
  split
  · intro _
    exact ⟨rfl, rfl⟩
  · intro h
    exact absurd h (by simp)

/-- C10 amended: every load operation first deletes the previous program and clears
its reflection tables (loading from a state and from its deleted state are
indistinguishable, so the previous program is never preserved), and every failed
load leaves both reflection maps empty, so every subsequent name lookup takes the
unresolved (assert) branch; however, handles from the partial attempt may remain
nonzero — a shader compiled before the failure stays in its handle field, and a
link failure leaves the fresh program handle set. -/
theorem C10_failed_load (env : GLEnv) (vf gf ff cf name : String) (st : ProgramState) :
    loadVertGeomFrag env vf gf ff st = loadVertGeomFrag env vf gf ff (deleteProgram st)
    ∧ loadCompute env cf st = loadCompute env cf (deleteProgram st)
    ∧ ((loadVertGeomFrag env vf gf ff st).1 = false →
        (loadVertGeomFrag env vf gf ff st).2.uniforms = []
        ∧ (loadVertGeomFrag env vf gf ff st).2.attribs = []
        ∧ (getUniformLoc (loadVertGeomFrag env vf gf ff st).2.uniforms name).assertFired
            = true
        ∧ (getAttribLoc (loadVertGeomFrag env vf gf ff st).2.attribs name).assertFired
            = true)
    ∧ ((loadCompute env cf st).1 = false →
        (loadCompute env cf st).2.uniforms = []
        ∧ (getUniformLoc (loadCompute env cf st).2.uniforms name).assertFired = true) := by
  refine ⟨rfl, rfl, ?_, ?_⟩
  · intro h
    have hmaps : (loadVertGeomFrag env vf gf ff st).2.uniforms = []
        ∧ (loadVertGeomFrag env vf gf ff st).2.attribs = [] := by
      revert h
      simp only [loadVertGeomFrag]
      repeat' split
      all_goals intro h
      all_goals first
        | exact ⟨rfl, rfl⟩
        | exact ⟨(compileStage_maps _ _ _ _ _ _).1, (compileStage_maps _ _ _ _ _ _).2⟩
        | exact ⟨(linkReflectStage_fail_maps _ _ _ h).1.trans
              (compileStage_maps _ _ _ _ _ _).1,
            (linkReflectStage_fail_maps _ _ _ h).2.trans
              (compileStage_maps _ _ _ _ _ _).2⟩
    exact ⟨hmaps.1, hmaps.2, by simp [getUniformLoc, hmaps.1],
      by simp [getAttribLoc, hmaps.2]⟩
  · intro h
    have hmap : (loadCompute env cf st).2.uniforms = [] := by
      revert h
      simp only [loadCompute]
      repeat' split
      all_goals intro h
      all_goals first
        | rfl
        | exact (linkReflectStage_fail_maps _ _ _ h).1
    exact ⟨hmap, by simp [getUniformLoc, hmap]⟩

/-- C10 amended, at a concrete input: a failed LoadVertGeomFrag (fragment shader
does not compile) and a failed LoadCompute (link fails) both leave empty reflection
maps, and the unresolved branch fires on a subsequent lookup. -/
theorem C10_failed_load_witness :
    (loadVertGeomFrag envC10a "v.glsl" "" "f.glsl" initProgram).2.uniforms = []
    ∧ (loadCompute envC10b "c.glsl" initProgram).2.uniforms = []
    ∧ (getUniformLoc (loadVertGeomFrag envC10a "v.glsl" "" "f.glsl"
        initProgram).2.uniforms "viewMat").assertFired = true :=
  ⟨((C10_failed_load envC10a "v.glsl" "" "f.glsl" "c.glsl" "viewMat" initProgram).2.2.1
      rfl).1,
   ((C10_failed_load envC10b "v.glsl" "" "f.glsl" "c.glsl" "viewMat" initProgram).2.2.2
      rfl).1,
   ((C10_failed_load envC10a "v.glsl" "" "f.glsl" "c.glsl" "viewMat" initProgram).2.2.1
      rfl).2.2.1⟩
